import Mathlib

/-!
Verification of the authentication security core of the fetch-otp backend.

The definitions below are a shallow embedding of the JavaScript source:
- config/security.js   (lockout policy: MAX_LOGIN_ATTEMPTS, lockout expiry, isAccountLocked)
- config/jwt.js        (token issue/verify on top of the jsonwebtoken library)
- models/User.js       (credential store rows and mutations)
- models/Session.js    (session ledger rows and mutations)
- services/authService.js (login, logout, refreshToken, changePassword orchestration)

Modelling conventions: time is a Nat count of seconds; the SQL NOW() of a call
and the JS new Date() of the same call are the same value, passed explicitly
as a parameter. Database tables are Lists of row structures; an SQL UPDATE
with a WHERE clause is a List.map that rewrites exactly the rows matched by
the WHERE predicate; SELECT ... WHERE x = ? LIMIT-one access is List.find?.
bcrypt is modelled as an injective encoding: verifyPassword succeeds exactly
on the plaintext that produced the hash.
-/

/-- JSON-style values appearing in token payloads and audit details. -/
inductive JVal where
  | s (v : String)
  | n (v : Nat)
  | b (v : Bool)
deriving DecidableEq, Repr

/-- A JavaScript object, as an ordered list of named fields. -/
abbrev JObj := List (String × JVal)

/-- The AppError class of middleware/errorHandler.js: message, HTTP status, code. -/
structure AppError where
  message : String
  statusCode : Nat
  code : String
deriving DecidableEq, Repr

deriving instance DecidableEq for Except

/-- Error thrown for a missing user or a wrong password in login (authService.js). -/
def invalidCredentialsError : AppError :=
  ⟨"Invalid username or password", 401, "INVALID_CREDENTIALS"⟩

/-- Error thrown when the account's is_active flag is false (authService.js). -/
def accountInactiveError : AppError :=
  ⟨"Account is inactive", 403, "ACCOUNT_INACTIVE"⟩

/-- Error thrown when the account is locked (authService.js). -/
def accountLockedError : AppError :=
  ⟨"Account is temporarily locked. Please try again later.", 423, "ACCOUNT_LOCKED"⟩

/-- Error thrown by refreshToken when the session is not valid (authService.js). -/
def invalidSessionError : AppError :=
  ⟨"Invalid or expired session", 401, "INVALID_TOKEN"⟩

/-- Error thrown by refreshToken when the session row is missing (authService.js). -/
def sessionNotFoundError : AppError :=
  ⟨"Session not found", 404, "SESSION_NOT_FOUND"⟩

/-- Error thrown by refreshToken when the user is missing or inactive (authService.js). -/
def userInactiveError : AppError :=
  ⟨"User not found or inactive", 401, "INVALID_TOKEN"⟩

/-- Error thrown by changePassword when the user row is missing (authService.js). -/
def userNotFoundError : AppError :=
  ⟨"User not found", 404, "USER_NOT_FOUND"⟩

/-- Error thrown by changePassword on a wrong current password (authService.js). -/
def currentPasswordIncorrectError : AppError :=
  ⟨"Current password is incorrect", 401, "INVALID_CREDENTIALS"⟩

/-- MAX_LOGIN_ATTEMPTS from config/security.js (env default 5). -/
def MAX_LOGIN_ATTEMPTS : Nat := 5

/-- LOCKOUT_DURATION_MINUTES from config/security.js (env default 15). -/
def LOCKOUT_DURATION_MINUTES : Nat := 15

/-- getLockoutExpiration of config/security.js: the current time plus
LOCKOUT_DURATION_MINUTES minutes, in seconds. -/
def getLockoutExpiration (now : Nat) : Nat :=
  now + LOCKOUT_DURATION_MINUTES * 60

/-- isAccountLocked of config/security.js: a falsy (null) locked_until is not
locked; otherwise locked exactly while new Date(lockedUntil) > new Date(). -/
def isAccountLocked (lockedUntil : Option Nat) (now : Nat) : Bool :=
  match lockedUntil with
  | none => false
  | some l => decide (now < l)

/-- Model of bcrypt.hash with BCRYPT_SALT_ROUNDS: an injective encoding of the
plaintext. The salt and cost are abstracted away; what the claims use is that
bcrypt.compare accepts exactly the plaintext the hash was derived from. -/
def bcryptHash (plain : String) : String :=
  "bcrypt$" ++ plain

/-- User.verifyPassword of models/User.js, i.e. bcrypt.compare. -/
def verifyPassword (plainPassword hashedPassword : String) : Bool :=
  bcryptHash plainPassword == hashedPassword

/-- JWT_SECRET from config/jwt.js (env default). -/
def JWT_SECRET : String := "default-secret-key-change-in-production"

/-- JWT_EXPIRES_IN from config/jwt.js (env default). -/
def JWT_EXPIRES_IN : String := "1h"

/-- getTokenExpirationSeconds of config/jwt.js: the regex parse of
JWT_EXPIRES_IN = "1h" yields value 1 and unit h, hence 1 * 3600 seconds. -/
def getTokenExpirationSeconds : Nat := 3600

/-- A signed JWT: the embedded payload together with the signature, which
binds the signing secret to the exact payload bytes (tamper evidence). -/
structure Token where
  payload : JObj
  sigPayload : JObj
  sigSecret : String
deriving DecidableEq, Repr

/-- Errors of jwt.verify as surfaced by verifyToken in config/jwt.js. -/
inductive JwtError where
  | expired
  | invalid
deriving DecidableEq, Repr

/-- jwt.sign(payload, secret, expiresIn): the jsonwebtoken library extends the
payload with the registered claims iat (issue time) and exp (issue time plus
the expiresIn duration) and signs the extended object. -/
def jwtSign (payload : JObj) (secret : String) (expiresInSecs : Nat) (now : Nat) : Token :=
  let full := payload ++ [("iat", JVal.n now), ("exp", JVal.n (now + expiresInSecs))]
  ⟨full, full, secret⟩

/-- jwt.verify(token, secret): reject a bad signature, reject an elapsed exp
(the library treats the token as expired once clockTimestamp >= exp), and
otherwise return the full embedded payload. -/
def jwtVerify (t : Token) (secret : String) (now : Nat) : Except JwtError JObj :=
  if t.sigSecret = secret ∧ t.sigPayload = t.payload then
    match List.lookup "exp" t.payload with
    | some (JVal.n e) => if e ≤ now then Except.error JwtError.expired else Except.ok t.payload
    | _ => Except.ok t.payload
  else
    Except.error JwtError.invalid

/-- generateToken of config/jwt.js: jwt.sign with JWT_SECRET and JWT_EXPIRES_IN. -/
def generateToken (payload : JObj) (now : Nat) : Token :=
  jwtSign payload JWT_SECRET getTokenExpirationSeconds now

/-- verifyToken of config/jwt.js: jwt.verify with JWT_SECRET (the wrapper only
renames the two library errors, which JwtError already distinguishes). -/
def verifyToken (t : Token) (now : Nat) : Except JwtError JObj :=
  jwtVerify t JWT_SECRET now

/-- A row of the users table, as selected by models/User.js. findById's SELECT
omits password_hash, which is why changePassword re-fetches by username; the
model keeps one row type for both since the underlying row is the same. -/
structure UserRow where
  id : Nat
  username : String
  password_hash : String
  email : String
  role : String
  is_active : Bool
  failed_login_attempts : Nat
  locked_until : Option Nat
  last_login_at : Option Nat
deriving DecidableEq, Repr

/-- A row of the sessions table, as selected by models/Session.js. -/
structure SessionRow where
  id : Nat
  user_id : Nat
  token : Token
  ip_address : String
  user_agent : String
  expires_at : Nat
  created_at : Nat
  revoked_at : Option Nat
deriving DecidableEq, Repr

/-- A row of the audit_logs table as written by AuditLog.create. -/
structure AuditEntry where
  userId : Option Nat
  action : String
  resource : String
  details : JObj
  ipAddress : String
  status : String
deriving DecidableEq, Repr

/-- The persistent state the authentication core reads and writes: the users
table, the sessions table with its autoincrement counter, the audit_logs
table, and the fallback channel audit writes fall to on durable failure. -/
structure AuthDB where
  users : List UserRow
  sessions : List SessionRow
  nextSessionId : Nat
  audit : List AuditEntry
  auditFallback : List AuditEntry
deriving DecidableEq, Repr

namespace User

/-- User.findByUsername: SELECT ... FROM users WHERE username = ?. -/
def findByUsername (username : String) (db : AuthDB) : Option UserRow :=
  db.users.find? (fun u => decide (u.username = username))

/-- User.findById: SELECT ... FROM users WHERE id = ?. -/
def findById (id : Nat) (db : AuthDB) : Option UserRow :=
  db.users.find? (fun u => decide (u.id = id))

/-- User.updateLastLogin: UPDATE users SET last_login_at = NOW() WHERE id = ?. -/
def updateLastLogin (userId : Nat) (now : Nat) (db : AuthDB) : AuthDB :=
  { db with users := db.users.map (fun u =>
      if u.id = userId then { u with last_login_at := some now } else u) }

/-- User.lockAccount: UPDATE users SET locked_until = getLockoutExpiration() WHERE id = ?. -/
def lockAccount (userId : Nat) (now : Nat) (db : AuthDB) : AuthDB :=
  { db with users := db.users.map (fun u =>
      if u.id = userId then { u with locked_until := some (getLockoutExpiration now) } else u) }

/-- User.incrementFailedAttempts: UPDATE users SET failed_login_attempts =
failed_login_attempts + 1 WHERE id = ?, then re-fetch the row, and if the
counter has reached MAX_LOGIN_ATTEMPTS lock the account and re-fetch again;
the (re-)fetched row is returned to the caller. -/
def incrementFailedAttempts (userId : Nat) (now : Nat) (db : AuthDB) :
    Option UserRow × AuthDB :=
  let db1 : AuthDB := { db with users := db.users.map (fun u =>
      if u.id = userId then { u with failed_login_attempts := u.failed_login_attempts + 1 } else u) }
  match findById userId db1 with
  | none => (none, db1)
  | some user =>
      if user.failed_login_attempts ≥ MAX_LOGIN_ATTEMPTS then
        let db2 := lockAccount userId now db1
        (findById userId db2, db2)
      else
        (some user, db1)

/-- User.resetFailedAttempts: UPDATE users SET failed_login_attempts = 0,
locked_until = NULL WHERE id = ?. -/
def resetFailedAttempts (userId : Nat) (db : AuthDB) : AuthDB :=
  { db with users := db.users.map (fun u =>
      if u.id = userId then { u with failed_login_attempts := 0, locked_until := none } else u) }

/-- User.changePassword: recompute the hash and UPDATE users SET
password_hash = ? WHERE id = ?. -/
def changePasswordRow (userId : Nat) (newPassword : String) (db : AuthDB) : AuthDB :=
  { db with users := db.users.map (fun u =>
      if u.id = userId then { u with password_hash := bcryptHash newPassword } else u) }

end User

namespace Session

/-- Session.create: INSERT INTO sessions (user_id, token, expires_at,
ip_address, user_agent) VALUES (...), returning the new autoincrement id. -/
def create (userId : Nat) (token : Token) (expiresAt : Nat) (ip ua : String)
    (now : Nat) (db : AuthDB) : Nat × AuthDB :=
  let sid := db.nextSessionId
  (sid, { db with
            sessions := db.sessions ++ [⟨sid, userId, token, ip, ua, expiresAt, now, none⟩],
            nextSessionId := sid + 1 })

/-- Session.findByToken: SELECT ... FROM sessions WHERE token = ?. -/
def findByToken (token : Token) (db : AuthDB) : Option SessionRow :=
  db.sessions.find? (fun s => decide (s.token = token))

/-- Session.revoke: UPDATE sessions SET revoked_at = NOW() WHERE id = ?. -/
def revoke (sessionId : Nat) (now : Nat) (db : AuthDB) : AuthDB :=
  { db with sessions := db.sessions.map (fun s =>
      if s.id = sessionId then { s with revoked_at := some now } else s) }

/-- Session.revokeByToken: UPDATE sessions SET revoked_at = NOW() WHERE token = ?. -/
def revokeByToken (token : Token) (now : Nat) (db : AuthDB) : AuthDB :=
  { db with sessions := db.sessions.map (fun s =>
      if s.token = token then { s with revoked_at := some now } else s) }

/-- Session.revokeAllByUserId: UPDATE sessions SET revoked_at = NOW()
WHERE user_id = ? AND revoked_at IS NULL. -/
def revokeAllByUserId (userId : Nat) (now : Nat) (db : AuthDB) : AuthDB :=
  { db with sessions := db.sessions.map (fun s =>
      if s.user_id = userId ∧ s.revoked_at = none then { s with revoked_at := some now } else s) }

/-- Session.isValid: fetch the row by token; false when absent, false when
revoked_at is set, false when new Date(expires_at) < new Date(), else true. -/
def isValid (token : Token) (now : Nat) (db : AuthDB) : Bool :=
  match findByToken token db with
  | none => false
  | some session =>
      if session.revoked_at.isSome then false
      else if session.expires_at < now then false
      else true

end Session

namespace AuditLog

/-- Modelled from the spec: models/AuditLog.js is required by the services but
is not among the source files; per spec section 4.5, record(event) never blocks
or fails the primary operation — a durable-write failure is logged to a
fallback channel and does not alter the auth decision. The writeOk flag says
whether the durable write succeeds on this call; on failure the entry goes to
the fallback channel and no error is raised. -/
def create (writeOk : Bool) (e : AuditEntry) (db : AuthDB) : AuthDB :=
  if writeOk then
    { db with audit := db.audit ++ [e] }
  else
    { db with auditFallback := db.auditFallback ++ [e] }

end AuditLog

/-- The user summary returned by a successful login (authService.js). -/
structure UserSummary where
  id : Nat
  username : String
  email : String
  role : String
deriving DecidableEq, Repr

/-- The result object of a successful login (authService.js). -/
structure LoginOk where
  token : Token
  user : UserSummary
  expiresIn : Nat
deriving DecidableEq, Repr

/-- The result object of a successful refreshToken (authService.js). -/
structure RefreshOk where
  token : Token
  expiresIn : Nat
deriving DecidableEq, Repr

/-- login of services/authService.js. The auditOk flag is threaded to every
AuditLog.create call of this operation (see AuditLog.create). Returns the
thrown AppError or the success object, together with the updated store. -/
def login (username password : String) (now : Nat) (auditOk : Bool)
    (ip ua : String) (db : AuthDB) : Except AppError LoginOk × AuthDB :=
  match User.findByUsername username db with
  | none =>
      let db1 := AuditLog.create auditOk
        ⟨none, "login", "auth", [("username", JVal.s username), ("reason", JVal.s "user_not_found")],
         ip, "failure"⟩ db
      (Except.error invalidCredentialsError, db1)
  | some user =>
      if user.is_active = false then
        let db1 := AuditLog.create auditOk
          ⟨some user.id, "login", "auth",
           [("username", JVal.s username), ("reason", JVal.s "account_inactive")],
           ip, "failure"⟩ db
        (Except.error accountInactiveError, db1)
      else if isAccountLocked user.locked_until now then
        let db1 := AuditLog.create auditOk
          ⟨some user.id, "login", "auth",
           [("username", JVal.s username), ("reason", JVal.s "account_locked")],
           ip, "failure"⟩ db
        (Except.error accountLockedError, db1)
      else if verifyPassword password user.password_hash = false then
        let r := User.incrementFailedAttempts user.id now db
        let updatedUser := r.1
        let db1 := r.2
        let db2 := AuditLog.create auditOk
          ⟨some user.id, "login", "auth",
           [("username", JVal.s username),
            ("failedAttempts", JVal.n ((updatedUser.map (fun u => u.failed_login_attempts)).getD 0)),
            ("isLocked", JVal.b ((updatedUser.map (fun u => u.locked_until.isSome)).getD false))],
           ip, "failure"⟩ db1
        (Except.error invalidCredentialsError, db2)
      else
        let db1 := User.resetFailedAttempts user.id db
        let db2 := User.updateLastLogin user.id now db1
        let token := generateToken
          [("userId", JVal.n user.id), ("username", JVal.s user.username),
           ("role", JVal.s user.role)] now
        let expiresIn := getTokenExpirationSeconds
        let expiresAt := now + expiresIn
        let r := Session.create user.id token expiresAt ip ua now db2
        let db3 := r.2
        let db4 := AuditLog.create auditOk
          ⟨some user.id, "login", "auth", [("username", JVal.s username)], ip, "success"⟩ db3
        (Except.ok ⟨token, ⟨user.id, user.username, user.email, user.role⟩, expiresIn⟩, db4)

/-- logout of services/authService.js: revoke the session by token, then
write the audit entry; there is no failure path of its own. -/
def logout (userId : Nat) (token : Token) (now : Nat) (auditOk : Bool)
    (ip : String) (db : AuthDB) : Except AppError Unit × AuthDB :=
  let db1 := Session.revokeByToken token now db
  let db2 := AuditLog.create auditOk
    ⟨some userId, "logout", "auth", [], ip, "success"⟩ db1
  (Except.ok (), db2)

/-- refreshToken of services/authService.js. -/
def refreshToken (currentToken : Token) (now : Nat) (auditOk : Bool)
    (ip ua : String) (db : AuthDB) : Except AppError RefreshOk × AuthDB :=
  if Session.isValid currentToken now db = false then
    (Except.error invalidSessionError, db)
  else
    match Session.findByToken currentToken db with
    | none => (Except.error sessionNotFoundError, db)
    | some session =>
        match User.findById session.user_id db with
        | none => (Except.error userInactiveError, db)
        | some user =>
            if user.is_active = false then
              (Except.error userInactiveError, db)
            else
              let db1 := Session.revoke session.id now db
              let newToken := generateToken
                [("userId", JVal.n user.id), ("username", JVal.s user.username),
                 ("role", JVal.s user.role)] now
              let expiresIn := getTokenExpirationSeconds
              let r := Session.create user.id newToken (now + expiresIn) ip ua now db1
              let db2 := r.2
              let db3 := AuditLog.create auditOk
                ⟨some user.id, "token_refresh", "auth", [], ip, "success"⟩ db2
              (Except.ok ⟨newToken, expiresIn⟩, db3)

/-- changePassword of services/authService.js: findById to get the username,
re-fetch by username to get the hash, verify the current password (failure is
audited and thrown), then set the new hash, revoke all the user's sessions
and audit. A null findById makes the JS dereference (await findById()).username
throw; the model surfaces that path as userNotFoundError as the outer catch
would, without further state change. -/
def changePassword (userId : Nat) (currentPassword newPassword : String)
    (now : Nat) (auditOk : Bool) (ip : String) (db : AuthDB) :
    Except AppError Unit × AuthDB :=
  match User.findById userId db with
  | none => (Except.error userNotFoundError, db)
  | some u0 =>
      match User.findByUsername u0.username db with
      | none => (Except.error userNotFoundError, db)
      | some user =>
          if verifyPassword currentPassword user.password_hash = false then
            let db1 := AuditLog.create auditOk
              ⟨some user.id, "password_change", "auth",
               [("reason", JVal.s "invalid_current_password")], ip, "failure"⟩ db
            (Except.error currentPasswordIncorrectError, db1)
          else
            let db1 := User.changePasswordRow userId newPassword db
            let db2 := Session.revokeAllByUserId userId now db1
            let db3 := AuditLog.create auditOk
              ⟨some user.id, "password_change", "auth", [], ip, "success"⟩ db2
            (Except.ok (), db3)

/-!
Concrete fixtures used by the scenario theorems and witnesses below. Time
values are seconds; the password hashes are bcryptHash images so that
verifyPassword accepts exactly the intended plaintext.
-/

/-- Client IP used by the concrete scenarios. -/
def reqIp : String := "127.0.0.1"

/-- The admin account of the lockout scenario, fresh: zero failures, no lock. -/
def adminRow : UserRow :=
  ⟨1, "admin", bcryptHash "correct", "admin@example.com", "admin", true, 0, none, none⟩

/-- Store before the first wrong-password attempt of the lockout scenario. -/
def dbAdmin0 : AuthDB := ⟨[adminRow], [], 1, [], []⟩

/-- Store after one wrong-password attempt at time 0. -/
def dbAdmin1 : AuthDB := (login "admin" "wrong" 0 true reqIp "ua" dbAdmin0).2

/-- Store after two wrong-password attempts. -/
def dbAdmin2 : AuthDB := (login "admin" "wrong" 1 true reqIp "ua" dbAdmin1).2

/-- Store after three wrong-password attempts. -/
def dbAdmin3 : AuthDB := (login "admin" "wrong" 2 true reqIp "ua" dbAdmin2).2

/-- Store after four wrong-password attempts. -/
def dbAdmin4 : AuthDB := (login "admin" "wrong" 3 true reqIp "ua" dbAdmin3).2

/-- An account that is both inactive and locked until time 100. -/
def bobRow : UserRow :=
  ⟨2, "bob", bcryptHash "pw", "bob@example.com", "user", false, 0, some 100, none⟩

/-- Store holding only the inactive locked account. -/
def dbBob : AuthDB := ⟨[bobRow], [], 1, [], []⟩

/-- An active account locked until time 1000. -/
def carolRow : UserRow :=
  ⟨3, "carol", bcryptHash "pw3", "carol@example.com", "user", true, 5, some 1000, none⟩

/-- Store holding only the active locked account. -/
def dbCarol : AuthDB := ⟨[carolRow], [], 1, [], []⟩

/-- An active, unlocked account whose password is the string right. -/
def danRow : UserRow :=
  ⟨4, "dan", bcryptHash "right", "dan@example.com", "user", true, 0, none, none⟩

/-- Store holding only the active unlocked account. -/
def dbDan : AuthDB := ⟨[danRow], [], 1, [], []⟩

/-- A claims object of the shape login signs: userId, username, role. -/
def clObj : JObj := [("userId", JVal.n 1), ("username", JVal.s "admin"), ("role", JVal.s "admin")]

/-- A token issued at time 0 (its embedded exp is 3600). -/
def tok6 : Token := generateToken [("userId", JVal.n 1)] 0

/-- A live session row whose ledger expires_at is exactly the current instant 0. -/
def sess6 : SessionRow := ⟨1, 1, tok6, "127.0.0.1", "ua", 0, 0, none⟩

/-- Store holding only the boundary-expiry session. -/
def db6 : AuthDB := ⟨[], [sess6], 2, [], []⟩

/-- Account for the password-change scenario. -/
def erinRow : UserRow :=
  ⟨5, "erin", bcryptHash "olderin", "erin@example.com", "user", true, 0, none, none⟩

/-- A second account whose session must survive the password change. -/
def frankRow : UserRow :=
  ⟨6, "frank", bcryptHash "frankpw", "frank@example.com", "user", true, 0, none, none⟩

/-- Token of the erin session issued at time 0. -/
def tokE : Token := generateToken [("userId", JVal.n 5)] 0

/-- Token of the frank session issued at time 0. -/
def tokF : Token := generateToken [("userId", JVal.n 6)] 0

/-- Store with both accounts and one live session each. -/
def dbC7 : AuthDB :=
  ⟨[erinRow, frankRow],
   [⟨1, 5, tokE, "127.0.0.1", "ua", 3600, 0, none⟩, ⟨2, 6, tokF, "127.0.0.1", "ua", 3600, 0, none⟩],
   3, [], []⟩

/-- Token of the first session of the frame scenario. -/
def tokA : Token := generateToken [("userId", JVal.n 1)] 0

/-- Token of the second session of the frame scenario, distinct from tokA. -/
def tokB : Token := generateToken [("userId", JVal.n 2)] 0

/-- Store with two live sessions for two users. -/
def dbAB : AuthDB :=
  ⟨[], [⟨1, 1, tokA, "127.0.0.1", "ua", 3600, 0, none⟩, ⟨2, 2, tokB, "127.0.0.1", "ua", 3600, 0, none⟩],
   3, [], []⟩

/-!
Helper lemmas shared by several claim theorems.
-/

/-- A find? over a mapped list commutes with the map when the map does not
change the predicate's verdict (an SQL UPDATE never changes the column the
WHERE clause of a later SELECT filters on). -/
theorem find?_map_pres {α : Type} (f : α → α) (p : α → Bool) (l : List α)
    (h : ∀ x, p (f x) = p x) :
    (l.map f).find? p = (l.find? p).map f := by
  induction l with
  | nil => rfl
  | cons a t ih =>
      simp only [List.map, List.find?]
      rw [h a]
      cases hp : p a
      · exact ih
      · rfl

/-- An audit write, successful or not, leaves the users table unchanged. -/
theorem auditCreate_users (ok : Bool) (e : AuditEntry) (db : AuthDB) :
    (AuditLog.create ok e db).users = db.users := by
  cases ok <;> rfl

/-- An audit write, successful or not, leaves the sessions table unchanged. -/
theorem auditCreate_sessions (ok : Bool) (e : AuditEntry) (db : AuthDB) :
    (AuditLog.create ok e db).sessions = db.sessions := by
  cases ok <;> rfl

/-- Session lookup by token is unaffected by audit writes. -/
theorem findByToken_auditCreate (t : Token) (ok : Bool) (e : AuditEntry) (db : AuthDB) :
    Session.findByToken t (AuditLog.create ok e db) = Session.findByToken t db := by
  cases ok <;> rfl

/-- The outcome of login does not depend on whether its audit writes succeed. -/
theorem login_auditOk_fst (un pw : String) (now : Nat) (ip ua : String) (db : AuthDB) :
    (login un pw now true ip ua db).1 = (login un pw now false ip ua db).1 := by
  unfold login
  cases User.findByUsername un db with
  | none => rfl
  | some user =>
      dsimp only []
      split
      · rfl
      · split
        · rfl
        · split
          · rfl
          · rfl

/-- The outcome of changePassword does not depend on audit-write success. -/
theorem changePassword_auditOk_fst (uid : Nat) (cur new : String) (now : Nat)
    (ip : String) (db : AuthDB) :
    (changePassword uid cur new now true ip db).1
      = (changePassword uid cur new now false ip db).1 := by
  unfold changePassword
  cases User.findById uid db with
  | none => rfl
  | some u0 =>
      dsimp only []
      cases User.findByUsername u0.username db with
      | none => rfl
      | some user =>
          dsimp only []
          split <;> rfl

/-- The outcome of refreshToken does not depend on audit-write success. -/
theorem refreshToken_auditOk_fst (tk : Token) (now : Nat) (ip ua : String) (db : AuthDB) :
    (refreshToken tk now true ip ua db).1 = (refreshToken tk now false ip ua db).1 := by
  unfold refreshToken
  split
  · rfl
  · cases Session.findByToken tk db with
    | none => rfl
    | some session =>
        dsimp only []
        cases User.findById session.user_id db with
        | none => rfl
        | some user =>
            dsimp only []
            split <;> rfl

/-!
Claim theorems.
-/

/-- C1 counterexample: in the T=5 lockout scenario, the 5th consecutive
wrong-password attempt (the one whose increment brings the counter to 5 and
engages the lock) is answered with InvalidCredentials, not with AccountLocked
as the claim states. -/
theorem lockout_fifth_attempt_counterexample :
    (login "admin" "wrong" 4 true reqIp "ua" dbAdmin4).1 = Except.error invalidCredentialsError
    ∧ ¬ ((login "admin" "wrong" 4 true reqIp "ua" dbAdmin4).1 = Except.error accountLockedError) := by
  decide

/-- C1 amended: with T=5 and D=15min, the 5th wrong-password attempt (at time
4) returns InvalidCredentials while setting failed_login_attempts to 5 and
locked_until to 904 = 4 + 900, i.e. 900 seconds after the locking attempt; a
6th attempt one second later (time 5) with the correct password returns
AccountLocked. No retryAfter field exists in any response. -/
theorem lockout_scenario_amended :
    (login "admin" "wrong" 4 true reqIp "ua" dbAdmin4).1 = Except.error invalidCredentialsError
    ∧ (User.findByUsername "admin" (login "admin" "wrong" 4 true reqIp "ua" dbAdmin4).2).map
        (fun u => (u.failed_login_attempts, u.locked_until)) = some (5, some 904)
    ∧ (login "admin" "correct" 5 true reqIp "ua"
        (login "admin" "wrong" 4 true reqIp "ua" dbAdmin4).2).1 = Except.error accountLockedError := by
  decide

/-- C2 counterexample: an account that is locked (lockedUntil = 100, now = 0)
but inactive is answered with AccountInactive, not AccountLocked, even when
the supplied password is correct — the inactive check runs before the lock
check, so the claim fails for locked inactive accounts. -/
theorem locked_account_claim_counterexample :
    User.findByUsername "bob" dbBob = some bobRow
    ∧ isAccountLocked bobRow.locked_until 0 = true
    ∧ verifyPassword "pw" bobRow.password_hash = true
    ∧ (login "bob" "pw" 0 true reqIp "ua" dbBob).1 = Except.error accountInactiveError
    ∧ ¬ ((login "bob" "pw" 0 true reqIp "ua" dbBob).1 = Except.error accountLockedError) := by
  decide

/-- C2 amended: for an ACTIVE account whose locked_until is strictly in the
future, every login attempt — whatever the password — fails with
AccountLocked, and the attempt leaves the users and sessions tables unchanged
(in particular the lock is not extended or re-armed). -/
theorem login_locked_active_account_rejects (db : AuthDB) (un pw : String) (now l : Nat)
    (auditOk : Bool) (ip ua : String) (u : UserRow)
    (h1 : User.findByUsername un db = some u)
    (h2 : u.is_active = true)
    (h3 : u.locked_until = some l)
    (h4 : now < l) :
    (login un pw now auditOk ip ua db).1 = Except.error accountLockedError
    ∧ ((login un pw now auditOk ip ua db).2).users = db.users
    ∧ ((login un pw now auditOk ip ua db).2).sessions = db.sessions := by
  unfold login
  rw [h1]
  simp only [h2, h3, isAccountLocked, h4, decide_True, Bool.true_eq_false, if_false, if_true,
    auditCreate_users, auditCreate_sessions]
  exact ⟨trivial, trivial, trivial⟩

/-- C2 witness: the amended theorem applied to the concrete active account
locked until time 1000, attempted at time 5 with its correct password. -/
theorem login_locked_active_account_rejects_witness :
    User.findByUsername "carol" dbCarol = some carolRow
    ∧ carolRow.is_active = true
    ∧ carolRow.locked_until = some 1000
    ∧ 5 < 1000
    ∧ ((login "carol" "pw3" 5 true reqIp "ua" dbCarol).1 = Except.error accountLockedError
       ∧ ((login "carol" "pw3" 5 true reqIp "ua" dbCarol).2).users = dbCarol.users
       ∧ ((login "carol" "pw3" 5 true reqIp "ua" dbCarol).2).sessions = dbCarol.sessions) :=
  ⟨by decide, by decide, by decide, by decide,
   login_locked_active_account_rejects dbCarol "carol" "pw3" 5 1000 true reqIp "ua" carolRow
     (by decide) (by decide) (by decide) (by decide)⟩

/-- C3: for each of the four authentication operations, the returned outcome
(success object or thrown error) is identical whether the audit-log durable
write succeeds or fails; AuditLog.create is modelled from spec section 4.5
since models/AuditLog.js is not among the sources. -/
theorem audit_write_failure_preserves_outcome (un pw : String) (now : Nat) (ip ua : String)
    (db : AuthDB) (uid : Nat) (tk : Token) (curPw newPw : String) :
    (login un pw now true ip ua db).1 = (login un pw now false ip ua db).1
    ∧ (logout uid tk now true ip db).1 = (logout uid tk now false ip db).1
    ∧ (refreshToken tk now true ip ua db).1 = (refreshToken tk now false ip ua db).1
    ∧ (changePassword uid curPw newPw now true ip db).1
        = (changePassword uid curPw newPw now false ip db).1 :=
  ⟨login_auditOk_fst un pw now ip ua db, rfl,
   refreshToken_auditOk_fst tk now ip ua db,
   changePassword_auditOk_fst uid curPw newPw now ip db⟩

/-- C4 counterexample: verifying a token freshly issued from the concrete
claims object does not return exactly that object — the signing step added
fields. -/
theorem token_roundtrip_counterexample :
    verifyToken (generateToken clObj 0) 0 ≠ Except.ok clObj := by
  decide

/-- C4 amended: verifying a freshly issued token returns the claims with
userId, username and role unchanged and in place, but with the registered
claims iat (issue time) and exp (issue time + 3600) appended by jwt.sign;
the result is therefore not exactly the input object. -/
theorem token_roundtrip_amended (uid : Nat) (un r : String) (now : Nat) :
    verifyToken (generateToken
        [("userId", JVal.n uid), ("username", JVal.s un), ("role", JVal.s r)] now) now
      = Except.ok [("userId", JVal.n uid), ("username", JVal.s un), ("role", JVal.s r),
                   ("iat", JVal.n now), ("exp", JVal.n (now + 3600))] := by
  unfold verifyToken jwtVerify generateToken jwtSign
  dsimp only
  split
  · rw [show List.lookup "exp"
          ([("userId", JVal.n uid), ("username", JVal.s un), ("role", JVal.s r)] ++
            [("iat", JVal.n now), ("exp", JVal.n (now + getTokenExpirationSeconds))])
        = some (JVal.n (now + getTokenExpirationSeconds)) from rfl]
    dsimp only
    rw [if_neg (by unfold getTokenExpirationSeconds; omega)]
    rfl
  · rename_i h
    exact absurd ⟨rfl, rfl⟩ h

/-- C5: a login with a username that matches no account and a login with an
existing, active, unlocked account but a wrong password both throw the very
same AppError value — same message, same HTTP status, same code — so the two
cases are indistinguishable to the caller. -/
theorem notfound_wrongpassword_indistinguishable (db : AuthDB) (un1 un2 pw1 pw2 : String)
    (now : Nat) (auditOk : Bool) (ip ua : String) (u : UserRow)
    (h1 : User.findByUsername un1 db = none)
    (h2 : User.findByUsername un2 db = some u)
    (h3 : u.is_active = true)
    (h4 : isAccountLocked u.locked_until now = false)
    (h5 : verifyPassword pw2 u.password_hash = false) :
    (login un1 pw1 now auditOk ip ua db).1 = Except.error invalidCredentialsError
    ∧ (login un2 pw2 now auditOk ip ua db).1 = Except.error invalidCredentialsError := by
  constructor
  · unfold login
    rw [h1]
  · unfold login
    rw [h2]
    simp only [h3, h4, h5, Bool.true_eq_false, Bool.false_eq_true, if_false, if_true]
    try rfl

/-- C5 witness: the theorem applied to a store in which ghost does not exist
and dan exists, is active and unlocked, with a wrong password supplied. -/
theorem notfound_wrongpassword_indistinguishable_witness :
    User.findByUsername "ghost" dbDan = none
    ∧ User.findByUsername "dan" dbDan = some danRow
    ∧ danRow.is_active = true
    ∧ isAccountLocked danRow.locked_until 0 = false
    ∧ verifyPassword "wrongpw" danRow.password_hash = false
    ∧ ((login "ghost" "anypw" 0 true reqIp "ua" dbDan).1 = Except.error invalidCredentialsError
       ∧ (login "dan" "wrongpw" 0 true reqIp "ua" dbDan).1 = Except.error invalidCredentialsError) :=
  ⟨by decide, by decide, by decide, by decide, by decide,
   notfound_wrongpassword_indistinguishable dbDan "ghost" "dan" "anypw" "wrongpw" 0 true reqIp "ua"
     danRow (by decide) (by decide) (by decide) (by decide) (by decide)⟩

/-- C6 counterexample: a live session whose ledger expires_at equals the
current instant (0) is reported valid by isValid, although its expiry is not
in the future — refuting the claim's characterization of isValid as requiring
now < expires_at. -/
theorem isValid_future_expiry_counterexample :
    Session.isValid tok6 0 db6 = true
    ∧ Session.findByToken tok6 db6 = some sess6
    ∧ sess6.revoked_at = none
    ∧ ¬ (0 < sess6.expires_at) := by
  decide

/-- C6 amended: after revokeByToken on a token, every subsequent isValid call
on that token returns false, at every later instant, whatever the token's
signature or embedded expiry; and isValid is exactly the ledger predicate:
true iff the row exists, revoked_at is null, and now <= expires_at (note the
non-strict comparison: a session expiring exactly now is still valid). -/
theorem isValid_ledger_amended (db : AuthDB) (t : Token) (now now' rnow : Nat) :
    Session.isValid t now' (Session.revokeByToken t rnow db) = false
    ∧ (Session.isValid t now db = true ↔
        ∃ s, Session.findByToken t db = some s ∧ s.revoked_at = none ∧ now ≤ s.expires_at) := by
  constructor
  · unfold Session.isValid Session.findByToken Session.revokeByToken
    dsimp only
    rw [find?_map_pres _ _ _ (by
      intro x
      by_cases hx : x.token = t <;> simp [hx])]
    cases hf : db.sessions.find? (fun s => decide (s.token = t)) with
    | none => rfl
    | some s =>
        have hps := @List.find?_some SessionRow (fun sx => decide (sx.token = t)) s db.sessions hf
        have hts : s.token = t := of_decide_eq_true hps
        rw [Option.map_some']
        dsimp only
        rw [if_pos hts]
        rfl
  · unfold Session.isValid
    cases hf : Session.findByToken t db with
    | none =>
        dsimp only
        apply Iff.intro
        · intro h
          exact Bool.noConfusion h
        · rintro ⟨s, hs, _, _⟩
          exact Option.noConfusion hs
    | some s =>
        dsimp only
        apply Iff.intro
        · intro h
          by_cases hrev : s.revoked_at.isSome = true
          · rw [if_pos hrev] at h
            exact Bool.noConfusion h
          · rw [if_neg hrev] at h
            by_cases hexp : s.expires_at < now
            · rw [if_pos hexp] at h
              exact Bool.noConfusion h
            · exact ⟨s, rfl, Option.not_isSome_iff_eq_none.mp hrev, Nat.le_of_not_lt hexp⟩
        · rintro ⟨s2, hs2, hrev, hle⟩
          injection hs2 with he
          subst he
          rw [if_neg (by simp [hrev]), if_neg (Nat.not_lt.mpr hle)]

/-- C7: a change-password whose current password verifies returns ok, sets
the user's stored hash to the hash of the new password, and leaves every
session of that user revoked, so any token whose session belonged to that
user before the change fails isValid at every later instant; when the current
password does not verify, the call throws InvalidCredentials, leaves users
and sessions untouched, and (when the audit write succeeds) appends exactly
one failure audit entry. -/
theorem changePassword_revokes_sessions (db : AuthDB) (userId : Nat) (curPw newPw : String)
    (now : Nat) (auditOk : Bool) (ip : String) (u0 user : UserRow)
    (h0 : User.findById userId db = some u0)
    (h1 : User.findByUsername u0.username db = some user) :
    (verifyPassword curPw user.password_hash = true →
        (changePassword userId curPw newPw now auditOk ip db).1 = Except.ok ()
        ∧ (∀ s' ∈ ((changePassword userId curPw newPw now auditOk ip db).2).sessions,
             s'.user_id = userId → s'.revoked_at.isSome = true)
        ∧ (∀ t s, Session.findByToken t db = some s → s.user_id = userId →
             ∀ now', Session.isValid t now' ((changePassword userId curPw newPw now auditOk ip db).2) = false)
        ∧ (∀ u' ∈ ((changePassword userId curPw newPw now auditOk ip db).2).users,
             u'.id = userId → u'.password_hash = bcryptHash newPw))
    ∧ (verifyPassword curPw user.password_hash = false →
        (changePassword userId curPw newPw now auditOk ip db).1
            = Except.error currentPasswordIncorrectError
        ∧ ((changePassword userId curPw newPw now auditOk ip db).2).users = db.users
        ∧ ((changePassword userId curPw newPw now auditOk ip db).2).sessions = db.sessions
        ∧ (auditOk = true → ((changePassword userId curPw newPw now auditOk ip db).2).audit
             = db.audit ++ [⟨some user.id, "password_change", "auth",
                             [("reason", JVal.s "invalid_current_password")], ip, "failure"⟩])) := by
  constructor
  · intro hv
    have hc : changePassword userId curPw newPw now auditOk ip db
        = (Except.ok (), AuditLog.create auditOk
            ⟨some user.id, "password_change", "auth", [], ip, "success"⟩
            (Session.revokeAllByUserId userId now (User.changePasswordRow userId newPw db))) := by
      unfold changePassword
      rw [h0]
      dsimp only
      rw [h1]
      dsimp only
      rw [if_neg (show ¬ (verifyPassword curPw user.password_hash = false) by rw [hv]; decide)]
    rw [hc]
    refine ⟨rfl, ?_, ?_, ?_⟩
    · intro s' hmem hsuid
      rw [auditCreate_sessions] at hmem
      unfold Session.revokeAllByUserId User.changePasswordRow at hmem
      dsimp only at hmem
      obtain ⟨a, ha, rfl⟩ := List.mem_map.mp hmem
      by_cases hcond : a.user_id = userId ∧ a.revoked_at = none
      · simp [hcond]
      · rw [if_neg hcond] at hsuid ⊢
        cases har : a.revoked_at with
        | none => exact absurd ⟨hsuid, har⟩ hcond
        | some x => simp [har]
    · intro t s hfind hsuids now'
      unfold Session.isValid
      rw [findByToken_auditCreate]
      unfold Session.findByToken Session.revokeAllByUserId User.changePasswordRow
      dsimp only
      rw [find?_map_pres _ _ _ (by
        intro x
        by_cases hx : x.user_id = userId ∧ x.revoked_at = none <;> simp [hx])]
      have hfind2 : db.sessions.find? (fun sx => decide (sx.token = t)) = some s := hfind
      rw [hfind2, Option.map_some']
      dsimp only
      by_cases hcond : s.user_id = userId ∧ s.revoked_at = none
      · rw [if_pos hcond]
        rfl
      · rw [if_neg hcond]
        cases har : s.revoked_at with
        | none => exact absurd ⟨hsuids, har⟩ hcond
        | some x => simp [har]
    · intro u' hmem hid
      rw [auditCreate_users] at hmem
      unfold Session.revokeAllByUserId User.changePasswordRow at hmem
      dsimp only at hmem
      obtain ⟨a, ha, rfl⟩ := List.mem_map.mp hmem
      by_cases hc2 : a.id = userId
      · simp [hc2]
      · simp only [if_neg hc2] at hid
        exact absurd hid hc2
  · intro hv
    have hc : changePassword userId curPw newPw now auditOk ip db
        = (Except.error currentPasswordIncorrectError, AuditLog.create auditOk
            ⟨some user.id, "password_change", "auth",
             [("reason", JVal.s "invalid_current_password")], ip, "failure"⟩ db) := by
      unfold changePassword
      rw [h0]
      dsimp only
      rw [h1]
      dsimp only
      rw [if_pos hv]
    rw [hc]
    refine ⟨rfl, auditCreate_users _ _ _, auditCreate_sessions _ _ _, ?_⟩
    intro hok
    rw [hok]
    rfl

/-- C7 witness: the theorem applied to a store with two users and one live
session each, changing erin's password with the correct current password. -/
theorem changePassword_revokes_sessions_witness :
    User.findById 5 dbC7 = some erinRow
    ∧ User.findByUsername "erin" dbC7 = some erinRow
    ∧ verifyPassword "olderin" erinRow.password_hash = true
    ∧ (changePassword 5 "olderin" "newerin" 50 true "127.0.0.1" dbC7).1 = Except.ok () :=
  ⟨by decide, by decide, by decide,
   ((changePassword_revokes_sessions dbC7 5 "olderin" "newerin" 50 true "127.0.0.1"
       erinRow erinRow (by decide) (by decide)).1 (by decide)).1⟩

/-- C8: a successful login (account found, active, unlocked, password
verified) returns the issued token with the user summary, and afterwards
every users-table row of that account has failed_login_attempts = 0 and
locked_until = null. -/
theorem login_success_resets_counters (db : AuthDB) (un pw : String) (now : Nat)
    (auditOk : Bool) (ip ua : String) (u : UserRow)
    (h1 : User.findByUsername un db = some u)
    (h2 : u.is_active = true)
    (h3 : isAccountLocked u.locked_until now = false)
    (h4 : verifyPassword pw u.password_hash = true) :
    (login un pw now auditOk ip ua db).1
      = Except.ok ⟨generateToken [("userId", JVal.n u.id), ("username", JVal.s u.username),
                                  ("role", JVal.s u.role)] now,
                   ⟨u.id, u.username, u.email, u.role⟩, getTokenExpirationSeconds⟩
    ∧ ∀ u' ∈ ((login un pw now auditOk ip ua db).2).users, u'.id = u.id →
        u'.failed_login_attempts = 0 ∧ u'.locked_until = none := by
  unfold login
  rw [h1]
  simp only [h2, h3, h4, Bool.true_eq_false, Bool.false_eq_true, if_false, if_true]
  constructor
  · trivial
  · intro u' hmem hid
    rw [auditCreate_users] at hmem
    have hmem2 : u' ∈ (User.updateLastLogin u.id now (User.resetFailedAttempts u.id db)).users := hmem
    unfold User.updateLastLogin User.resetFailedAttempts at hmem2
    dsimp only at hmem2
    obtain ⟨b, hb, rfl⟩ := List.mem_map.mp hmem2
    obtain ⟨a, ha, rfl⟩ := List.mem_map.mp hb
    by_cases hc : a.id = u.id
    · simp [hc]
    · simp only [if_neg hc] at hid
      exact absurd hid hc

/-- C8 witness: the theorem applied to the concrete active unlocked account
dan logging in with the correct password at time 0. -/
theorem login_success_resets_counters_witness :
    User.findByUsername "dan" dbDan = some danRow
    ∧ danRow.is_active = true
    ∧ isAccountLocked danRow.locked_until 0 = false
    ∧ verifyPassword "right" danRow.password_hash = true
    ∧ ((login "dan" "right" 0 true reqIp "ua" dbDan).1
        = Except.ok ⟨generateToken [("userId", JVal.n danRow.id), ("username", JVal.s danRow.username),
                                    ("role", JVal.s danRow.role)] 0,
                     ⟨danRow.id, danRow.username, danRow.email, danRow.role⟩, getTokenExpirationSeconds⟩
       ∧ ∀ u' ∈ ((login "dan" "right" 0 true reqIp "ua" dbDan).2).users, u'.id = danRow.id →
           u'.failed_login_attempts = 0 ∧ u'.locked_until = none) :=
  ⟨by decide, by decide, by decide, by decide,
   login_success_resets_counters dbDan "dan" "right" 0 true reqIp "ua" danRow
     (by decide) (by decide) (by decide) (by decide)⟩

/-- C9: the inactive check and the lock check run before password
verification, so an existing inactive account answers AccountInactive and an
existing active locked account answers AccountLocked for every supplied
password, while a nonexistent username answers InvalidCredentials; the former
two responses differ from the latter, revealing that the account exists. -/
theorem precheck_order_reveals_existence (db : AuthDB) (un pw : String) (now : Nat)
    (auditOk : Bool) (ip ua : String) :
    (∀ u, User.findByUsername un db = some u → u.is_active = false →
        (login un pw now auditOk ip ua db).1 = Except.error accountInactiveError)
    ∧ (∀ u, User.findByUsername un db = some u → u.is_active = true →
        isAccountLocked u.locked_until now = true →
        (login un pw now auditOk ip ua db).1 = Except.error accountLockedError)
    ∧ (User.findByUsername un db = none →
        (login un pw now auditOk ip ua db).1 = Except.error invalidCredentialsError)
    ∧ accountInactiveError ≠ invalidCredentialsError
    ∧ accountLockedError ≠ invalidCredentialsError := by
  refine ⟨?_, ?_, ?_, by decide, by decide⟩
  · intro u hu hin
    unfold login
    rw [hu]
    simp only [hin, if_true]
    try rfl
  · intro u hu hact hlock
    unfold login
    rw [hu]
    simp only [hact, hlock, Bool.true_eq_false, Bool.false_eq_true, if_false, if_true]
    try rfl
  · intro hn
    unfold login
    rw [hn]

/-- C9 witness: the theorem's inactive conjunct applied to the concrete
inactive account bob, with an arbitrary password. -/
theorem precheck_order_reveals_existence_witness :
    User.findByUsername "bob" dbBob = some bobRow
    ∧ bobRow.is_active = false
    ∧ (login "bob" "anypw" 0 true reqIp "ua" dbBob).1 = Except.error accountInactiveError :=
  ⟨by decide, by decide,
   (precheck_order_reveals_existence dbBob "bob" "anypw" 0 true reqIp "ua").1 bobRow
     (by decide) (by decide)⟩

/-- C10: revoking by token — directly or through logout — changes no session
row with a different token: lookup of any other token returns the same row,
its isValid verdict is unchanged, and every session row whose token differs
is still present unchanged in the table. -/
theorem revokeByToken_frame (db : AuthDB) (tk t' : Token) (now now' : Nat)
    (uid : Nat) (auditOk : Bool) (ip : String)
    (h : t' ≠ tk) :
    Session.findByToken t' (Session.revokeByToken tk now db) = Session.findByToken t' db
    ∧ Session.isValid t' now' (Session.revokeByToken tk now db) = Session.isValid t' now' db
    ∧ (∀ s ∈ db.sessions, s.token ≠ tk → s ∈ (Session.revokeByToken tk now db).sessions)
    ∧ Session.findByToken t' ((logout uid tk now auditOk ip db).2) = Session.findByToken t' db
    ∧ Session.isValid t' now' ((logout uid tk now auditOk ip db).2) = Session.isValid t' now' db := by
  have hfind : Session.findByToken t' (Session.revokeByToken tk now db)
      = Session.findByToken t' db := by
    unfold Session.findByToken Session.revokeByToken
    dsimp only
    rw [find?_map_pres _ _ _ (by
      intro x
      by_cases hx : x.token = tk <;> simp [hx])]
    cases hf : db.sessions.find? (fun s => decide (s.token = t')) with
    | none => rfl
    | some s =>
        have hps := @List.find?_some SessionRow (fun sx => decide (sx.token = t')) s db.sessions hf
        have hts : s.token = t' := of_decide_eq_true hps
        rw [Option.map_some']
        rw [if_neg (show ¬ (s.token = tk) by rw [hts]; exact h)]
  have hvalid : Session.isValid t' now' (Session.revokeByToken tk now db)
      = Session.isValid t' now' db := by
    unfold Session.isValid
    rw [hfind]
  have hlogf : Session.findByToken t' ((logout uid tk now auditOk ip db).2)
      = Session.findByToken t' db := by
    unfold logout
    dsimp only
    rw [findByToken_auditCreate, hfind]
  refine ⟨hfind, hvalid, ?_, hlogf, ?_⟩
  · intro s hs hneq
    show s ∈ (Session.revokeByToken tk now db).sessions
    unfold Session.revokeByToken
    dsimp only
    have hfs : (if s.token = tk then { s with revoked_at := some now } else s) = s := if_neg hneq
    rw [← hfs]
    exact List.mem_map_of_mem _ hs
  · unfold Session.isValid
    rw [hlogf]

/-- C10 witness: the theorem applied to the concrete two-session store,
revoking the first token and observing the second. -/
theorem revokeByToken_frame_witness :
    tokB ≠ tokA
    ∧ (Session.findByToken tokB (Session.revokeByToken tokA 5 dbAB) = Session.findByToken tokB dbAB
       ∧ Session.isValid tokB 10 (Session.revokeByToken tokA 5 dbAB) = Session.isValid tokB 10 dbAB
       ∧ (∀ s ∈ dbAB.sessions, s.token ≠ tokA → s ∈ (Session.revokeByToken tokA 5 dbAB).sessions)
       ∧ Session.findByToken tokB ((logout 1 tokA 5 true "127.0.0.1" dbAB).2)
           = Session.findByToken tokB dbAB
       ∧ Session.isValid tokB 10 ((logout 1 tokA 5 true "127.0.0.1" dbAB).2)
           = Session.isValid tokB 10 dbAB) :=
  ⟨by decide, revokeByToken_frame dbAB tokA tokB 5 10 1 true "127.0.0.1" (by decide)⟩
